import Mathlib

/-!
Verification development for the publish-configuration and path-resolution
cores of the scriptworker-scripts repository.

The repository ships two pure "resolver" components:

* `PushApk` — `pushapkscript/publish_config.py`: resolves a static
  per-product publish configuration and a task payload into a normalized
  Google-Play publish directive (`get_publish_config`,
  `_google_should_do_dry_run`).
* `Beetmover` — `beetmoverscript/utils.py`: computes candidate/release
  storage prefixes, partner-prefix matching, exclusion filtering, artifact-map
  lookups and task-id validation.

Both Python modules are exercised by the unit-test files
`src/pushapkscript/tests/test_publish_config.py` and
`src/beetmoverscript/tests/test_utils.py`; the module bodies themselves are
not part of the source tree given here, so every operation below is modelled
from the specification document, and adjusted — with an explicit note at the
definition — wherever the unit tests (which are part of the source tree and
were written against the real implementation) pin down behaviour that differs
from the specification's wording.  The test fixtures and the expected values
of the tests are reproduced as concrete values, and lemmas named `test_...`
check that the model reproduces every assertion of the relevant tests.
-/

/-- Python's `dict.get(key)` over a string-keyed association list:
the value at the first matching key, or `none`. -/
def dictGet {α : Type} (m : List (String × α)) (k : String) : Option α :=
  match m with
  | [] => none
  | (k', v) :: rest => if k' = k then some v else dictGet rest k

deriving instance DecidableEq for Except

theorem except_bind_ok {ε α β : Type} (a : α) (f : α → Except ε β) :
    (Except.ok a : Except ε α).bind f = f a := rfl

theorem except_bind_error {ε α β : Type} (e : ε) (f : α → Except ε β) :
    (Except.error e : Except ε α).bind f = Except.error e := rfl

namespace PushApk

/-- Nested per-store (`google`) section of an app entry, as in the
`FENIX_CONFIG` test fixture. -/
structure GoogleSection where
  default_track : Option String
  service_account : Option String
  credentials_file : Option String
deriving DecidableEq

/-- One app entry of a static publish configuration (the "single-app" shape,
also the value type of the `apps` mapping of the multi-app shape). -/
structure AppEntry where
  package_names : List String
  certificate_alias : Option String
  default_track : Option String
  service_account : Option String
  credentials_file : Option String
  google : Option GoogleSection
deriving DecidableEq

/-- A static publish configuration document: an optional
`override_channel_model` discriminator together with either a sole `app`
entry or an `apps` mapping. -/
structure ProductConfig where
  override_channel_model : Option String
  app : Option AppEntry
  apps : List (String × AppEntry)
deriving DecidableEq

/-- The task payload fields read by the publish-config resolver. -/
structure TaskPayload where
  google_play_track : Option String
  channel : Option String
  rollout_percentage : Option Int
  commit : Option Bool
  target_store : Option String
deriving DecidableEq

/-- The task payload with no field set (`{}` in the tests). -/
def emptyPayload : TaskPayload :=
  { google_play_track := none, channel := none, rollout_percentage := none,
    commit := none, target_store := none }

/-- The normalized publish directive returned by `get_publish_config`,
mirroring the dictionary the tests compare against. -/
structure PublishConfig where
  target_store : String
  dry_run : Bool
  certificate_alias : Option String
  google_track : String
  google_rollout_percentage : Option Int
  username : String
  secret : String
  package_names : List String
deriving DecidableEq

/-- The error taxonomy of the publish-config resolver (spec §7): a
configuration-shape error, a track-resolution error and an
unsupported-target error are distinguishable kinds. -/
inductive PublishError where
  | configurationShape (msg : String)
  | trackResolution (msg : String)
  | unsupportedTarget (msg : String)
deriving DecidableEq

/-- Modelled from the spec: `_google_should_do_dry_run` of
`pushapkscript/publish_config.py` (not under src/), spec §4.2 step 5:
`dryRun = not taskPayload.get("commit", False)`. -/
def _google_should_do_dry_run (payload : TaskPayload) : Bool :=
  ! (payload.commit.getD false)

/-- Modelled from the spec: app-entry selection of `get_publish_config`
(spec §4.2 step 1), with the selection for configurations that carry no
`override_channel_model` adjusted to follow the repository's unit tests
(`test_get_publish_config_fenix` selects the `apps` entry named by the
payload `channel`, not by the `appName` argument). -/
def select_app (cfg : ProductConfig) (payload : TaskPayload) (appName : String) :
    Except PublishError AppEntry :=
  if cfg.override_channel_model = some "single_google_app" then
    match cfg.app with
    | some a => Except.ok a
    | none => Except.error (PublishError.configurationShape "expected a sole app entry")
  else if cfg.override_channel_model = some "choose_google_app_with_scope" then
    match dictGet cfg.apps appName with
    | some a => Except.ok a
    | none => Except.error (PublishError.configurationShape ("unknown app " ++ appName))
  else
    match cfg.app with
    | some a => Except.ok a
    | none =>
      match dictGet cfg.apps (payload.channel.getD appName) with
      | some a => Except.ok a
      | none =>
        Except.error
          (PublishError.configurationShape ("unknown channel " ++ payload.channel.getD appName))

/-- The merged view of the per-store section used by the resolver. -/
structure ResolvedSection where
  default_track : Option String
  service_account : Option String
  credentials_file : Option String
deriving DecidableEq

/-- Modelled from the spec: the active Google store section of an app entry
(spec §4.2 step 2) — the nested `google` section merged over the entry's
top-level fields, nested winning on conflicts; the top-level fields alone
when no nested section exists. -/
def googleSection (app : AppEntry) : ResolvedSection :=
  match app.google with
  | none =>
    { default_track := app.default_track, service_account := app.service_account,
      credentials_file := app.credentials_file }
  | some g =>
    { default_track := g.default_track <|> app.default_track,
      service_account := g.service_account <|> app.service_account,
      credentials_file := g.credentials_file <|> app.credentials_file }

/-- Modelled from the spec: the publish directive built from an already
selected app entry (spec §4.2 steps 2–6), with the track precedence of
step 3 adjusted to follow the repository's unit tests
(`test_get_publish_config_fenix` resolves the section's `default_track`
ahead of the payload `channel`): override > `default_track` > `channel`. -/
def publish_from_app (payload : TaskPayload) (app : AppEntry) :
    Except PublishError PublishConfig :=
  if payload.target_store.getD "google" ≠ "google" then
    Except.error
      (PublishError.unsupportedTarget ("unsupported target " ++ payload.target_store.getD "google"))
  else
    match payload.google_play_track <|> (googleSection app).default_track <|> payload.channel with
    | none => Except.error (PublishError.trackResolution "no track to publish on")
    | some track =>
      match (googleSection app).service_account with
      | none => Except.error (PublishError.configurationShape "missing service_account")
      | some username =>
        match (googleSection app).credentials_file with
        | none => Except.error (PublishError.configurationShape "missing credentials_file")
        | some secret =>
          Except.ok
            { target_store := "google",
              dry_run := _google_should_do_dry_run payload,
              certificate_alias := app.certificate_alias,
              google_track := track,
              google_rollout_percentage := payload.rollout_percentage,
              username := username,
              secret := secret,
              package_names := app.package_names }

/-- Modelled from the spec: `get_publish_config` of
`pushapkscript/publish_config.py` (not under src/), spec §4.2, composed of
app-entry selection and directive construction. -/
def get_publish_config (cfg : ProductConfig) (payload : TaskPayload) (appName : String) :
    Except PublishError PublishConfig :=
  (select_app cfg payload appName).bind (publish_from_app payload)

/-! Test fixtures of `src/pushapkscript/tests/test_publish_config.py`. -/

/-- The `AURORA_CONFIG` fixture: multi-app shape with the
`choose_google_app_with_scope` channel model. -/
def AURORA_CONFIG : ProductConfig :=
  { override_channel_model := some "choose_google_app_with_scope",
    app := none,
    apps := [("aurora",
      { package_names := ["org.mozilla.fennec_aurora"],
        certificate_alias := some "aurora",
        default_track := some "beta",
        service_account := some "aurora@service.account.com",
        credentials_file := some "aurora.p12",
        google := none })] }

/-- The `FOCUS_CONFIG` fixture: single-app shape with the
`single_google_app` channel model. -/
def FOCUS_CONFIG : ProductConfig :=
  { override_channel_model := some "single_google_app",
    app := some
      { package_names := ["org.mozilla.focus"],
        certificate_alias := some "focus",
        default_track := none,
        service_account := some "focus@service.account.com",
        credentials_file := some "focus.p12",
        google := none },
    apps := [] }

/-- The app entry of the `FENIX_CONFIG` fixture, keyed by channel
`"production"`, with a nested `google` section. -/
def fenixApp : AppEntry :=
  { package_names := ["org.mozilla.fenix"],
    certificate_alias := some "fenix",
    default_track := none,
    service_account := none,
    credentials_file := none,
    google := some
      { default_track := some "internal",
        service_account := some "fenix@service.account.com",
        credentials_file := some "fenix.p12" } }

/-- The `FENIX_CONFIG` fixture: multi-app shape without an
`override_channel_model`. -/
def FENIX_CONFIG : ProductConfig :=
  { override_channel_model := none, app := none, apps := [("production", fenixApp)] }

/-- The `ANY_STORE_CONFIG` fixture. -/
def ANY_STORE_CONFIG : ProductConfig :=
  { override_channel_model := none,
    app := none,
    apps := [("production",
      { package_names := ["org.mozilla.flex"],
        certificate_alias := some "flex",
        default_track := none,
        service_account := none,
        credentials_file := none,
        google := some
          { default_track := some "internal",
            service_account := some "flex@service.account.com",
            credentials_file := some "flex.p12" } })] }

/-- The payload `{"channel": "production"}` of `test_get_publish_config_fenix`. -/
def fenixPayload : TaskPayload := { emptyPayload with channel := some "production" }

/-- The directive `test_get_publish_config_fenix` expects. -/
def fenixExpected : PublishConfig :=
  { target_store := "google", dry_run := true, certificate_alias := some "fenix",
    google_track := "internal", google_rollout_percentage := none,
    username := "fenix@service.account.com", secret := "fenix.p12",
    package_names := ["org.mozilla.fenix"] }

/-! Model validation: the model reproduces every assertion of
`src/pushapkscript/tests/test_publish_config.py`. -/

theorem test_get_publish_config_fennec :
    get_publish_config AURORA_CONFIG emptyPayload "aurora" = Except.ok
      { target_store := "google", dry_run := true, certificate_alias := some "aurora",
        google_track := "beta", google_rollout_percentage := none,
        username := "aurora@service.account.com", secret := "aurora.p12",
        package_names := ["org.mozilla.fennec_aurora"] } := rfl

theorem test_get_publish_config_fennec_track_override :
    get_publish_config AURORA_CONFIG { emptyPayload with google_play_track := some "internal_qa" }
      "aurora" = Except.ok
      { target_store := "google", dry_run := true, certificate_alias := some "aurora",
        google_track := "internal_qa", google_rollout_percentage := none,
        username := "aurora@service.account.com", secret := "aurora.p12",
        package_names := ["org.mozilla.fennec_aurora"] } := rfl

theorem test_get_publish_config_fennec_rollout :
    get_publish_config AURORA_CONFIG { emptyPayload with rollout_percentage := some 10 }
      "aurora" = Except.ok
      { target_store := "google", dry_run := true, certificate_alias := some "aurora",
        google_track := "beta", google_rollout_percentage := some 10,
        username := "aurora@service.account.com", secret := "aurora.p12",
        package_names := ["org.mozilla.fennec_aurora"] } := rfl

theorem test_get_publish_config_focus :
    get_publish_config FOCUS_CONFIG { emptyPayload with channel := some "beta" } "focus" =
      Except.ok
      { target_store := "google", dry_run := true, certificate_alias := some "focus",
        google_track := "beta", google_rollout_percentage := none,
        username := "focus@service.account.com", secret := "focus.p12",
        package_names := ["org.mozilla.focus"] } := rfl

theorem test_get_publish_config_focus_rollout :
    get_publish_config FOCUS_CONFIG
      { emptyPayload with channel := some "production", rollout_percentage := some 10 }
      "focus" = Except.ok
      { target_store := "google", dry_run := true, certificate_alias := some "focus",
        google_track := "production", google_rollout_percentage := some 10,
        username := "focus@service.account.com", secret := "focus.p12",
        package_names := ["org.mozilla.focus"] } := rfl

theorem test_get_publish_config_fenix :
    get_publish_config FENIX_CONFIG fenixPayload "fenix" = Except.ok fenixExpected := rfl

theorem test_get_publish_config_fenix_rollout :
    get_publish_config FENIX_CONFIG { fenixPayload with rollout_percentage := some 10 } "fenix" =
      Except.ok { fenixExpected with google_rollout_percentage := some 10 } := rfl

theorem test_target_google :
    get_publish_config ANY_STORE_CONFIG
      { emptyPayload with channel := some "production", target_store := some "google" } "flex" =
      Except.ok
      { target_store := "google", dry_run := true, certificate_alias := some "flex",
        google_track := "internal", google_rollout_percentage := none,
        username := "flex@service.account.com", secret := "flex.p12",
        package_names := ["org.mozilla.flex"] } := rfl

theorem test_google_should_do_dry_run :
    _google_should_do_dry_run { emptyPayload with commit := some true } = false ∧
    _google_should_do_dry_run { emptyPayload with commit := some false } = true ∧
    _google_should_do_dry_run emptyPayload = true := by decide

/-! Helper lemmas about the resolver. -/

/-- A successful resolution factors through a successfully selected app entry. -/
theorem get_publish_config_ok {cfg : ProductConfig} {payload : TaskPayload} {n : String}
    {d : PublishConfig} (h : get_publish_config cfg payload n = Except.ok d) :
    ∃ app, select_app cfg payload n = Except.ok app ∧ publish_from_app payload app = Except.ok d := by
  unfold get_publish_config at h
  cases hsel : select_app cfg payload n with
  | ok app => rw [hsel, except_bind_ok] at h; exact ⟨app, rfl, h⟩
  | error e => rw [hsel, except_bind_error] at h; exact absurd h (by simp)

/-- Everything a successful `publish_from_app` guarantees about the fields of
the directive it returns. -/
theorem publish_from_app_ok {payload : TaskPayload} {app : AppEntry} {d : PublishConfig}
    (h : publish_from_app payload app = Except.ok d) :
    some d.google_track =
      (payload.google_play_track <|> (googleSection app).default_track <|> payload.channel) ∧
    d.dry_run = _google_should_do_dry_run payload ∧
    d.google_rollout_percentage = payload.rollout_percentage ∧
    d.target_store = "google" ∧
    some d.username = (googleSection app).service_account ∧
    some d.secret = (googleSection app).credentials_file ∧
    d.certificate_alias = app.certificate_alias ∧
    d.package_names = app.package_names := by
  unfold publish_from_app at h
  split at h
  · exact absurd h (by simp)
  · split at h
    · exact absurd h (by simp)
    · rename_i track htr
      split at h
      · exact absurd h (by simp)
      · rename_i username hu
        split at h
        · exact absurd h (by simp)
        · rename_i secret hs
          simp only [Except.ok.injEq] at h
          subst h
          exact ⟨htr.symm, rfl, rfl, rfl, hu.symm, hs.symm, rfl, rfl⟩

/-- The selected app entry does not depend on the `appName` argument outside
the `choose_google_app_with_scope` model, as long as the configuration has a
sole `app` entry or the payload carries a `channel`. -/
theorem select_app_ignores_name (cfg : ProductConfig) (payload : TaskPayload) (n n' : String)
    (hne : cfg.override_channel_model ≠ some "choose_google_app_with_scope")
    (hsome : cfg.override_channel_model = some "single_google_app" ∨
      cfg.app.isSome = true ∨ payload.channel.isSome = true) :
    select_app cfg payload n = select_app cfg payload n' := by
  by_cases h1 : cfg.override_channel_model = some "single_google_app"
  · simp [select_app, h1]
  · rcases hsome with h | h | h
    · exact absurd h h1
    · rcases Option.isSome_iff_exists.mp h with ⟨a, ha⟩
      simp [select_app, h1, hne, ha]
    · rcases Option.isSome_iff_exists.mp h with ⟨c, hc⟩
      cases hap : cfg.app <;> simp [select_app, h1, hne, hc, hap]

/-! Claims C1–C3. -/

/-- C1 counterexample (from `test_get_publish_config_fenix` in
`src/pushapkscript/tests/test_publish_config.py`): `FENIX_CONFIG` contains an
`apps` mapping in which the `appName` argument `"fenix"` is absent, yet
`get_publish_config` succeeds instead of raising a configuration-shape error —
the entry is selected by the payload `channel`, not by `appName`. -/
theorem c1_counterexample :
    dictGet FENIX_CONFIG.apps "fenix" = none ∧
    get_publish_config FENIX_CONFIG fenixPayload "fenix" = Except.ok fenixExpected :=
  ⟨rfl, rfl⟩

/-- C1 (amended): under the `choose_google_app_with_scope` model the app
entry is selected by looking up `appName` in the `apps` mapping and an absent
`appName` raises a configuration-shape error; outside that model the
`appName` argument is ignored (whenever a sole `app` entry or a payload
`channel` is available); and for a configuration without an override channel
model and without a sole `app` entry, the entry is selected by the payload
`channel`, an unknown channel raising a configuration-shape error. -/
theorem c1_app_selection (cfg : ProductConfig) (payload : TaskPayload) (n n' c : String) :
    (cfg.override_channel_model = some "choose_google_app_with_scope" →
      dictGet cfg.apps n = none →
      ∃ msg, get_publish_config cfg payload n =
        Except.error (PublishError.configurationShape msg)) ∧
    (cfg.override_channel_model ≠ some "choose_google_app_with_scope" →
      cfg.override_channel_model = some "single_google_app" ∨
        cfg.app.isSome = true ∨ payload.channel.isSome = true →
      get_publish_config cfg payload n = get_publish_config cfg payload n') ∧
    (cfg.override_channel_model = none → cfg.app = none → payload.channel = some c →
      dictGet cfg.apps c = none →
      ∃ msg, get_publish_config cfg payload n =
        Except.error (PublishError.configurationShape msg)) := by
  refine ⟨fun h hn => ?_, fun hne hsome => ?_, fun h0 hap hc hn => ?_⟩
  · refine ⟨"unknown app " ++ n, ?_⟩
    have hsel : select_app cfg payload n =
        Except.error (PublishError.configurationShape ("unknown app " ++ n)) := by
      simp [select_app, h, hn]
    unfold get_publish_config
    rw [hsel, except_bind_error]
  · unfold get_publish_config
    rw [select_app_ignores_name cfg payload n n' hne hsome]
  · refine ⟨"unknown channel " ++ c, ?_⟩
    have hsel : select_app cfg payload n =
        Except.error (PublishError.configurationShape ("unknown channel " ++ c)) := by
      simp [select_app, h0, hap, hc, hn]
    unfold get_publish_config
    rw [hsel, except_bind_error]

/-- C1 witness: the amended claim applied to the repository's fixtures — an
unknown app under `AURORA_CONFIG`, appName-independence under `FOCUS_CONFIG`,
and an unknown channel under `FENIX_CONFIG`. -/
theorem c1_app_selection_witness :
    (∃ msg, get_publish_config AURORA_CONFIG emptyPayload "unknown_app" =
      Except.error (PublishError.configurationShape msg)) ∧
    get_publish_config FOCUS_CONFIG { emptyPayload with channel := some "beta" } "focus" =
      get_publish_config FOCUS_CONFIG { emptyPayload with channel := some "beta" } "other" ∧
    (∃ msg, get_publish_config FENIX_CONFIG { emptyPayload with channel := some "nightly" }
      "fenix" = Except.error (PublishError.configurationShape msg)) :=
  ⟨(c1_app_selection AURORA_CONFIG emptyPayload "unknown_app" "x" "y").1 rfl rfl,
   (c1_app_selection FOCUS_CONFIG { emptyPayload with channel := some "beta" }
     "focus" "other" "y").2.1 (by decide) (Or.inl rfl),
   (c1_app_selection FENIX_CONFIG { emptyPayload with channel := some "nightly" }
     "fenix" "x" "nightly").2.2 rfl rfl rfl rfl⟩

/-- C2 counterexample (from `test_get_publish_config_fenix`): with no
`google_play_track` override and the payload channel `"production"`, the
resolved track is the section's `default_track` `"internal"`, not the
channel — so the channel does not take precedence over `default_track` as the
claim states. -/
theorem c2_counterexample :
    fenixPayload.google_play_track = none ∧
    fenixPayload.channel = some "production" ∧
    (googleSection fenixApp).default_track = some "internal" ∧
    get_publish_config FENIX_CONFIG fenixPayload "fenix" = Except.ok fenixExpected ∧
    fenixExpected.google_track = "internal" ∧
    "internal" ≠ "production" :=
  ⟨rfl, rfl, rfl, rfl, rfl, by decide⟩

/-- C2 (amended): the track of a successfully returned directive is resolved
with the precedence (highest first) `google_play_track` override, then the
resolved section's `default_track`, then the payload `channel` as a
fallback. -/
theorem c2_track_precedence (cfg : ProductConfig) (payload : TaskPayload) (n : String)
    (app : AppEntry) (d : PublishConfig)
    (happ : select_app cfg payload n = Except.ok app)
    (hok : get_publish_config cfg payload n = Except.ok d) :
    some d.google_track =
      (payload.google_play_track <|> (googleSection app).default_track <|> payload.channel) := by
  obtain ⟨app', hsel, hpub⟩ := get_publish_config_ok hok
  rw [happ] at hsel
  cases hsel
  exact (publish_from_app_ok hpub).1

/-- C2 witness: the precedence applied to the fenix fixture — the
`default_track` `"internal"` wins over the channel `"production"`. -/
theorem c2_track_precedence_witness :
    some fenixExpected.google_track =
      (fenixPayload.google_play_track <|> (googleSection fenixApp).default_track <|>
        fenixPayload.channel) :=
  c2_track_precedence FENIX_CONFIG fenixPayload "fenix" fenixApp fenixExpected rfl rfl

/-- C3: the dry-run flag is the negation of the payload's `commit` value with
default `false` — it is `true` exactly when `commit` is absent or `false`,
`false` exactly when `commit` is `true` — and it is copied verbatim into
every directive `get_publish_config` returns. -/
theorem c3_dry_run (payload : TaskPayload) :
    (_google_should_do_dry_run payload = true ↔
      payload.commit = none ∨ payload.commit = some false) ∧
    (_google_should_do_dry_run payload = false ↔ payload.commit = some true) ∧
    (∀ cfg n d, get_publish_config cfg payload n = Except.ok d →
      d.dry_run = _google_should_do_dry_run payload) := by
  refine ⟨?_, ?_, fun cfg n d h => ?_⟩
  · rcases h : payload.commit with _ | b
    · simp [_google_should_do_dry_run, h]
    · cases b <;> simp [_google_should_do_dry_run, h]
  · rcases h : payload.commit with _ | b
    · simp [_google_should_do_dry_run, h]
    · cases b <;> simp [_google_should_do_dry_run, h]
  · obtain ⟨app, _, hpub⟩ := get_publish_config_ok h
    exact (publish_from_app_ok hpub).2.1

/-- C3 witness: the dry-run characterization applied to the three payload
states of `test_google_should_do_dry_run` and to the fenix directive. -/
theorem c3_dry_run_witness :
    _google_should_do_dry_run { emptyPayload with commit := some true } = false ∧
    _google_should_do_dry_run { emptyPayload with commit := some false } = true ∧
    _google_should_do_dry_run emptyPayload = true ∧
    fenixExpected.dry_run = _google_should_do_dry_run fenixPayload :=
  ⟨(c3_dry_run { emptyPayload with commit := some true }).2.1.mpr rfl,
   (c3_dry_run { emptyPayload with commit := some false }).1.mpr (Or.inr rfl),
   (c3_dry_run emptyPayload).1.mpr (Or.inl rfl),
   (c3_dry_run fenixPayload).2.2 FENIX_CONFIG "fenix" fenixExpected rfl⟩

end PushApk

namespace Beetmover

/-- Error kinds raised by the beetmover path utilities: a task-verification
error (artifact-map lookups) and a plain value error (task-id validation,
empty prefix arguments). -/
inductive UtilError where
  | taskVerification (msg : String)
  | valueError (msg : String)
deriving DecidableEq

/-- Modelled from the spec: the product-family lookup table of
`beetmoverscript/utils.py` (not under src/), spec §4.1 — `"mobile"` for the
mobile products (`"fennec"`, `"mobile"`), the product name itself
otherwise. -/
def product_family (product : String) : String :=
  if product = "fennec" ∨ product = "mobile" then "mobile" else product

/-- Modelled from the spec: `get_candidates_prefix` of
`beetmoverscript/utils.py` (not under src/), spec §4.1 —
`pub/<family>/candidates/<version>-candidates/build<buildNumber>/`, failing
if `version` or `build_number` is empty. -/
def get_candidates_prefix (product version build_number : String) :
    Except UtilError String :=
  if version = "" ∨ build_number = "" then
    Except.error (UtilError.valueError "empty version or build number")
  else
    Except.ok ("pub/" ++ product_family product ++ "/candidates/" ++ version ++
      "-candidates/build" ++ build_number ++ "/")

/-- Modelled from the spec: `get_releases_prefix` of
`beetmoverscript/utils.py` (not under src/), spec §4.1 —
`pub/<family>/releases/<version>/` with the same family substitution. -/
def get_releases_prefix (product version : String) : String :=
  "pub/" ++ product_family product ++ "/releases/" ++ version ++ "/"

/-- Modelled from the spec: `get_partner_candidates_prefix` of
`beetmoverscript/utils.py` (not under src/), spec §4.1 —
`<basePrefix>partner-repacks/<partnerPath>/v1/`. -/
def get_partner_candidates_prefix (base partnerPath : String) : String :=
  base ++ "partner-repacks/" ++ partnerPath ++ "/v1/"

/-- Modelled from the spec: `get_partner_releases_prefix` of
`beetmoverscript/utils.py` (not under src/), spec §4.1 —
`pub/<family>/releases/partners/<partnerPath>/<version>/`. -/
def get_partner_releases_prefix (product version partnerPath : String) : String :=
  "pub/" ++ product_family product ++ "/releases/partners/" ++ partnerPath ++ "/" ++ version ++ "/"

/-- Python's `str.startswith`, on the character lists of the strings. -/
def startswith (s pre : String) : Bool :=
  pre.data.isPrefixOf s.data

/-- The `"<group>/<subgroup>"` rendering of a partner pair. -/
def partner_path (p : String × String) : String :=
  p.1 ++ "/" ++ p.2

/-- Modelled from the spec: `get_partner_match` of `beetmoverscript/utils.py`
(not under src/), spec §4.1 — the first listed `(group, subgroup)` pair whose
partner candidates prefix is a prefix of `key`, rendered as
`"<group>/<subgroup>"`; `none` when no pair matches. -/
def get_partner_match (key base : String) : List (String × String) → Option String
  | [] => none
  | p :: rest =>
    if startswith key ( get_partner_candidates_prefix base (partner_path p)) then
      some (partner_path p)
    else get_partner_match key base rest

/-- The final path segment of a filename: the characters after the last
`/`, the whole filename when it has none. -/
def basename (filename : String) : String :=
  String.mk ((filename.data.reverse.takeWhile (fun c => c ≠ '/')).reverse)

/-- Modelled from the spec: `exists_or_endswith` of
`beetmoverscript/utils.py` (not under src/), spec §4.1 — whether the filename
itself or its final path segment is exactly a member of `basenames`. -/
def exists_or_endswith (filename : String) (basenames : List String) : Bool :=
  basenames.contains filename || basenames.contains (basename filename)

/-- The per-file destination record of an artifact-map entry (the value the
lookup returns). -/
structure FileConfig where
  destinations : List String
  checksums_path : String
  from_buildid : Option Int
  update_balrog_manifest : Bool
deriving DecidableEq

/-- One artifact-map entry: a task, a locale, and the files the task
provides for that locale. -/
structure ArtifactMapEntry where
  taskId : String
  locale : String
  paths : List (String × FileConfig)
deriving DecidableEq

/-- Modelled from the spec: `extract_file_config_from_artifact_map` of
`beetmoverscript/utils.py` (not under src/), spec §4.1 — the file record of
the first entry whose `taskId` and `locale` both match and whose `paths`
carry `filename`; a task-verification error naming the triple when no entry
matches. -/
def extract_file_config_from_artifact_map (artifact_map : List ArtifactMapEntry)
    (filename task_id locale : String) : Except UtilError FileConfig :=
  match artifact_map with
  | [] =>
    Except.error (UtilError.taskVerification
      ("No artifact map entry for file " ++ filename ++ ", task " ++ task_id ++
        ", locale " ++ locale))
  | e :: rest =>
    if e.taskId = task_id ∧ e.locale = locale then
      match dictGet e.paths filename with
      | some cfg => Except.ok cfg
      | none => extract_file_config_from_artifact_map rest filename task_id locale
    else extract_file_config_from_artifact_map rest filename task_id locale

/-- Whether a character belongs to the URL-safe base64 alphabet of
TaskCluster slugs. -/
def slugChar (c : Char) : Bool :=
  (decide ('A' ≤ c) && decide (c ≤ 'Z')) || (decide ('a' ≤ c) && decide (c ≤ 'z')) ||
    (decide ('0' ≤ c) && decide (c ≤ '9')) || c == '_' || c == '-'

/-- Modelled from the spec: `validated_task_id` of `beetmoverscript/utils.py`
(not under src/); the specification document does not describe it, so it is
modelled as the 22-character TaskCluster-slug shape `^[A-Za-z0-9_-]{22}$`
exercised by `test_validated_task_id` and `test_validated_task_id_raises`:
the argument returned unchanged when it is such a slug, a value error
otherwise. -/
def validated_task_id (task_id : String) : Except UtilError String :=
  if task_id.data.length = 22 ∧ task_id.data.all slugChar = true then Except.ok task_id
  else Except.error (UtilError.valueError "Task ID not valid")

/-! Test fixtures and model validation against
`src/beetmoverscript/tests/test_utils.py`. -/

/-- The file record the artifact-map lookup test expects for `target.txt`. -/
def targetTxtConfig : FileConfig :=
  { destinations :=
      ["pub/mobile/nightly/2016/09/2016-09-01-16-26-14-mozilla-central-fake/en-US/fake-99.0a1.en-US.target.txt",
       "pub/mobile/nightly/latest-mozilla-central-fake/en-US/fake-99.0a1.en-US.target.txt"],
    checksums_path := "",
    from_buildid := some 19991231235959,
    update_balrog_manifest := true }

/-- The artifact map of the `task_artifact_map.json` fixture, restricted to
the entry the lookup tests exercise. -/
def artifactMapFixture : List ArtifactMapEntry :=
  [{ taskId := "eSzfNqMZT_mSiQQXu8hyqg", locale := "en-US",
     paths := [("target.txt", targetTxtConfig)] }]

theorem test_get_candidates_prefix :
    get_candidates_prefix "fennec" "bar" "baz" =
      Except.ok "pub/mobile/candidates/bar-candidates/buildbaz/" ∧
    get_candidates_prefix "mobile" "99.0a3" "14" =
      Except.ok "pub/mobile/candidates/99.0a3-candidates/build14/" := by decide

theorem test_get_releases_prefix :
    get_releases_prefix "firefox" "bar" = "pub/firefox/releases/bar/" ∧
    get_releases_prefix "fennec" "99.0a3" = "pub/mobile/releases/99.0a3/" := by decide

theorem test_get_partner_candidates_prefix :
    get_partner_candidates_prefix "foo/" "p1/s2" = "foo/partner-repacks/p1/s2/v1/" := by decide

theorem test_get_partner_releases_prefix :
    get_partner_releases_prefix "firefox" "bar" "p1/s1" =
      "pub/firefox/releases/partners/p1/s1/bar/" := by decide

theorem test_get_partner_match :
    get_partner_match "blah.excludeme" "foo/" [] = none ∧
    get_partner_match "foo/partner-repacks/p1/s1/v1/baz/biz.buzz" "foo/"
      [("p1", "s1")] = some "p1/s1" ∧
    get_partner_match "foo/partner-repacks/p1/s1/v1/baz/biz.buzz" "foo/"
      [("p1", "s1"), ("p1", "s2")] = some "p1/s1" ∧
    get_partner_match "foo/partner-repacks/p1/s2/v1/baz/biz.buzz" "foo/"
      [("p1", "s1"), ("p1", "s2")] = some "p1/s2" ∧
    get_partner_match "foo/partner-repacks/p2/s3/v1/baz/biz.buzz" "foo/"
      [("p1", "s1"), ("p1", "s2")] = none := by decide

theorem test_exists_or_endswith :
    exists_or_endswith "public/build/target.dmg" ["target.dmg"] = true ∧
    exists_or_endswith "public/build/en-US/target.dmg" ["target.dmg"] = true ∧
    exists_or_endswith "sfvxcvcxvbvcb" ["target.dmg"] = false ∧
    exists_or_endswith "public/build/target.dmgx" ["target.dmg"] = false ∧
    exists_or_endswith "target.dmg" ["target.dmg"] = true ∧
    exists_or_endswith "target.dmgx" ["target.dmg"] = false ∧
    exists_or_endswith "public/build/en-US/buildhub.json" ["buildhub.json"] = true ∧
    exists_or_endswith "public/build/buildhub.json" ["buildhub.json"] = true ∧
    exists_or_endswith "buildhub.json" ["buildhub.json"] = true ∧
    exists_or_endswith "public/build/buildhub.jsonxX" ["buildhub.json"] = false ∧
    exists_or_endswith "buildhub.jsonsdf03094" ["buildhub.json"] = false ∧
    exists_or_endswith "buildhub.jsonXXX" ["buildhub.json"] = false := by decide

theorem test_extract_file_config_from_artifact_map :
    extract_file_config_from_artifact_map artifactMapFixture "target.txt"
      "eSzfNqMZT_mSiQQXu8hyqg" "en-US" = Except.ok targetTxtConfig := rfl

theorem test_extract_file_config_from_artifact_map_raises :
    (∃ m, extract_file_config_from_artifact_map artifactMapFixture "target.txt"
      "wrongqMZT_mSiQQXu8hyqg" "en-US" = Except.error (UtilError.taskVerification m)) ∧
    (∃ m, extract_file_config_from_artifact_map artifactMapFixture "target.txt"
      "eSzfNqMZT_mSiQQXu8hyqg" "en-wrong" = Except.error (UtilError.taskVerification m)) ∧
    (∃ m, extract_file_config_from_artifact_map artifactMapFixture "target.wrong"
      "eSzfNqMZT_mSiQQXu8hyqg" "en-US" = Except.error (UtilError.taskVerification m)) :=
  ⟨⟨_, rfl⟩, ⟨_, rfl⟩, ⟨_, rfl⟩⟩

theorem test_validated_task_id :
    validated_task_id "eSzfNqMZT_mSiQQXu8hyqg" = Except.ok "eSzfNqMZT_mSiQQXu8hyqg" := by decide

theorem test_validated_task_id_raises :
    (∃ m, validated_task_id "foobar" = Except.error (UtilError.valueError m)) ∧
    (∃ m, validated_task_id "" = Except.error (UtilError.valueError m)) ∧
    (∃ m, validated_task_id "eSzfNqMZT_mSiQQXu8hyq" = Except.error (UtilError.valueError m)) :=
  ⟨⟨_, rfl⟩, ⟨_, rfl⟩, ⟨_, rfl⟩⟩

/-! Anchored regular expressions for the exclusion patterns.  The patterns of
the repository use literals, `.` and `*`, so the abstract syntax carries
characters, an any-character atom, alternation, concatenation and iteration;
matching is whole-string (anchored), computed with Brzozowski derivatives and
proved correct against the inductive language semantics. -/

/-- Abstract syntax of the exclusion regular expressions. -/
inductive RE where
  | emp : RE
  | eps : RE
  | chr : Char → RE
  | dot : RE
  | alt : RE → RE → RE
  | cat : RE → RE → RE
  | star : RE → RE
deriving DecidableEq

/-- The language semantics: `Matches r s` says the whole character list `s`
belongs to the language of `r`. -/
inductive Matches : RE → List Char → Prop where
  | eps : Matches RE.eps []
  | chr (c : Char) : Matches (RE.chr c) [c]
  | dot (c : Char) : Matches RE.dot [c]
  | altL {a b : RE} {s : List Char} : Matches a s → Matches (RE.alt a b) s
  | altR {a b : RE} {s : List Char} : Matches b s → Matches (RE.alt a b) s
  | cat {a b : RE} {s t : List Char} : Matches a s → Matches b t →
      Matches (RE.cat a b) (s ++ t)
  | starNil {a : RE} : Matches (RE.star a) []
  | starCons {a : RE} {s t : List Char} : Matches a s → Matches (RE.star a) t →
      Matches (RE.star a) (s ++ t)

theorem matches_emp_iff {s : List Char} : Matches RE.emp s ↔ False :=
  ⟨fun h => (nomatch h), False.elim⟩

theorem matches_eps_iff {s : List Char} : Matches RE.eps s ↔ s = [] := by
  constructor
  · intro h
    cases h
    rfl
  · rintro rfl
    exact Matches.eps

theorem matches_chr_iff {c : Char} {s : List Char} : Matches (RE.chr c) s ↔ s = [c] := by
  constructor
  · intro h
    cases h
    rfl
  · rintro rfl
    exact Matches.chr c

theorem matches_dot_iff {s : List Char} : Matches RE.dot s ↔ ∃ c, s = [c] := by
  constructor
  · intro h
    cases h with
    | dot c => exact ⟨c, rfl⟩
  · rintro ⟨c, rfl⟩
    exact Matches.dot c

theorem matches_alt_iff {a b : RE} {s : List Char} :
    Matches (RE.alt a b) s ↔ Matches a s ∨ Matches b s := by
  constructor
  · intro h
    cases h with
    | altL h => exact Or.inl h
    | altR h => exact Or.inr h
  · rintro (h | h)
    · exact Matches.altL h
    · exact Matches.altR h

theorem matches_cat_iff {a b : RE} {s : List Char} :
    Matches (RE.cat a b) s ↔ ∃ u v, s = u ++ v ∧ Matches a u ∧ Matches b v := by
  constructor
  · intro h
    cases h with
    | cat h1 h2 => exact ⟨_, _, rfl, h1, h2⟩
  · rintro ⟨u, v, rfl, h1, h2⟩
    exact Matches.cat h1 h2

/-- Alternation smart constructor: drops the empty language. -/
def mkAlt : RE → RE → RE
  | RE.emp, r => r
  | a, RE.emp => a
  | a, b => RE.alt a b

/-- Concatenation smart constructor: absorbs the empty language and drops
epsilon factors. -/
def mkCat : RE → RE → RE
  | RE.emp, _ => RE.emp
  | _, RE.emp => RE.emp
  | RE.eps, r => r
  | a, RE.eps => a
  | a, b => RE.cat a b

theorem mkAlt_iff {a b : RE} {s : List Char} :
    Matches (mkAlt a b) s ↔ Matches (RE.alt a b) s := by
  cases a <;> cases b <;>
    simp [mkAlt, matches_alt_iff, matches_emp_iff]

theorem matches_cat_emp_left {b : RE} {s : List Char} :
    Matches (RE.cat RE.emp b) s ↔ False := by
  simp [matches_cat_iff, matches_emp_iff]

theorem matches_cat_emp_right {a : RE} {s : List Char} :
    Matches (RE.cat a RE.emp) s ↔ False := by
  simp [matches_cat_iff, matches_emp_iff]

theorem matches_cat_eps_left {b : RE} {s : List Char} :
    Matches (RE.cat RE.eps b) s ↔ Matches b s := by
  constructor
  · intro h
    obtain ⟨u, v, rfl, h1, h2⟩ := matches_cat_iff.mp h
    obtain rfl := matches_eps_iff.mp h1
    simpa using h2
  · intro h
    exact matches_cat_iff.mpr ⟨[], s, rfl, Matches.eps, h⟩

theorem matches_cat_eps_right {a : RE} {s : List Char} :
    Matches (RE.cat a RE.eps) s ↔ Matches a s := by
  constructor
  · intro h
    obtain ⟨u, v, rfl, h1, h2⟩ := matches_cat_iff.mp h
    obtain rfl := matches_eps_iff.mp h2
    simpa using h1
  · intro h
    exact matches_cat_iff.mpr ⟨s, [], by simp, h, Matches.eps⟩

theorem mkCat_iff {a b : RE} {s : List Char} :
    Matches (mkCat a b) s ↔ Matches (RE.cat a b) s := by
  cases a <;> cases b <;>
    simp [mkCat, matches_emp_iff, matches_cat_emp_left, matches_cat_emp_right,
      matches_cat_eps_left, matches_cat_eps_right]

/-- Whether the empty word belongs to the language of `r`. -/
def nullable : RE → Bool
  | RE.emp => false
  | RE.eps => true
  | RE.chr _ => false
  | RE.dot => false
  | RE.alt a b => nullable a || nullable b
  | RE.cat a b => nullable a && nullable b
  | RE.star _ => true

theorem nullable_iff {r : RE} : nullable r = true ↔ Matches r [] := by
  induction r with
  | emp => simp [nullable, matches_emp_iff]
  | eps => simp [nullable, matches_eps_iff]
  | chr c => simp [nullable, matches_chr_iff]
  | dot => simp [nullable, matches_dot_iff]
  | alt a b iha ihb => simp [nullable, matches_alt_iff, iha, ihb]
  | cat a b iha ihb =>
    simp only [nullable, Bool.and_eq_true, iha, ihb, matches_cat_iff]
    constructor
    · rintro ⟨h1, h2⟩
      exact ⟨[], [], rfl, h1, h2⟩
    · rintro ⟨u, v, huv, h1, h2⟩
      obtain ⟨rfl, rfl⟩ := List.append_eq_nil.mp huv.symm
      exact ⟨h1, h2⟩
  | star a ih =>
    simp only [nullable, true_iff]
    exact Matches.starNil

theorem matches_star_cons {a : RE} {c : Char} {s : List Char}
    (h : Matches (RE.star a) (c :: s)) :
    ∃ u v, s = u ++ v ∧ Matches a (c :: u) ∧ Matches (RE.star a) v := by
  generalize hr : RE.star a = r at h
  generalize hl : c :: s = l at h
  revert hr hl
  induction h generalizing c s with
  | eps => intro hr hl; simp at hr
  | chr c' => intro hr hl; simp at hr
  | dot c' => intro hr hl; simp at hr
  | altL h' ih => intro hr hl; simp at hr
  | altR h' ih => intro hr hl; simp at hr
  | cat h1 h2 ih1 ih2 => intro hr hl; simp at hr
  | starNil => intro hr hl; simp at hl
  | starCons h1 h2 ih1 ih2 =>
    intro hr hl
    injection hr with ha
    subst ha
    rename_i u v
    cases u with
    | nil =>
      simp only [List.nil_append] at hl
      exact ih2 rfl hl
    | cons c' u' =>
      simp only [List.cons_append] at hl
      injection hl with hc hu
      subst hc
      exact ⟨u', v, hu, h1, h2⟩

/-- The Brzozowski derivative of `r` by the character `c`. -/
def deriv (r : RE) (c : Char) : RE :=
  match r with
  | RE.emp => RE.emp
  | RE.eps => RE.emp
  | RE.chr d => if d = c then RE.eps else RE.emp
  | RE.dot => RE.eps
  | RE.alt a b => mkAlt (deriv a c) (deriv b c)
  | RE.cat a b =>
    if nullable a then mkAlt (mkCat (deriv a c) b) (deriv b c)
    else mkCat (deriv a c) b
  | RE.star a => mkCat (deriv a c) (RE.star a)

theorem deriv_iff {r : RE} {c : Char} {s : List Char} :
    Matches (deriv r c) s ↔ Matches r (c :: s) := by
  induction r generalizing s with
  | emp => simp [deriv, matches_emp_iff]
  | eps => simp [deriv, matches_emp_iff, matches_eps_iff]
  | chr d =>
    by_cases h : d = c
    · subst h
      simp [deriv, matches_eps_iff, matches_chr_iff]
    · have hd : deriv (RE.chr d) c = RE.emp := by simp [deriv, h]
      rw [hd]
      simp only [matches_emp_iff, matches_chr_iff, false_iff]
      intro hc
      injection hc with h1 h2
      exact h h1.symm
  | dot =>
    simp only [deriv, matches_eps_iff, matches_dot_iff]
    constructor
    · rintro rfl
      exact ⟨c, rfl⟩
    · rintro ⟨c', hc⟩
      simp only [List.cons.injEq] at hc
      exact hc.2
  | alt a b iha ihb => simp [deriv, mkAlt_iff, matches_alt_iff, iha, ihb]
  | cat a b iha ihb =>
    by_cases hn : nullable a = true
    · have hd : deriv (RE.cat a b) c = mkAlt (mkCat (deriv a c) b) (deriv b c) := by
        simp [deriv, hn]
      rw [hd]
      simp only [mkAlt_iff, matches_alt_iff, mkCat_iff, matches_cat_iff, iha, ihb]
      constructor
      · rintro (⟨u, v, rfl, h1, h2⟩ | h)
        · exact ⟨c :: u, v, rfl, h1, h2⟩
        · exact ⟨[], c :: s, rfl, nullable_iff.mp hn, h⟩
      · rintro ⟨u, v, huv, h1, h2⟩
        cases u with
        | nil =>
          simp only [List.nil_append] at huv
          subst huv
          exact Or.inr h2
        | cons c' u' =>
          simp only [List.cons_append] at huv
          injection huv with hc hu
          subst hc
          exact Or.inl ⟨u', v, hu, h1, h2⟩
    · have hd : deriv (RE.cat a b) c = mkCat (deriv a c) b := by
        simp [deriv, hn]
      rw [hd]
      simp only [mkCat_iff, matches_cat_iff, iha]
      constructor
      · rintro ⟨u, v, rfl, h1, h2⟩
        exact ⟨c :: u, v, rfl, h1, h2⟩
      · rintro ⟨u, v, huv, h1, h2⟩
        cases u with
        | nil =>
          exact absurd (nullable_iff.mpr h1) hn
        | cons c' u' =>
          simp only [List.cons_append] at huv
          injection huv with hc hu
          subst hc
          exact ⟨u', v, hu, h1, h2⟩
  | star a ih =>
    simp only [deriv, mkCat_iff, matches_cat_iff, ih]
    constructor
    · rintro ⟨u, v, rfl, h1, h2⟩
      have h3 := Matches.starCons h1 h2
      simpa using h3
    · intro h
      exact matches_star_cons h

/-- Anchored matching of `r` against a character list, by repeated
derivatives. -/
def reMatchList (r : RE) : List Char → Bool
  | [] => nullable r
  | c :: cs => reMatchList (deriv r c) cs

theorem reMatchList_iff {r : RE} {l : List Char} :
    reMatchList r l = true ↔ Matches r l := by
  induction l generalizing r with
  | nil => exact nullable_iff
  | cons c cs ih => exact Iff.trans ih deriv_iff

/-- Anchored (whole-string) matching of a pattern against a string. -/
def fullmatch (r : RE) (key : String) : Bool :=
  reMatchList r key.data

/-- Modelled from the spec: `matches_exclude` of `beetmoverscript/utils.py`
(not under src/), spec §4.1 — whether some pattern of the ordered exclusion
sequence fully matches the whole key, under anchored regular-expression
semantics. -/
def matches_exclude (key : String) (excludes : List RE) : Bool :=
  excludes.any (fun r => fullmatch r key)

/-- A literal-string pattern. -/
def lit (s : String) : RE :=
  s.data.foldr (fun c r => RE.cat (RE.chr c) r) RE.eps

/-- The pattern `.*`. -/
def dotStar : RE := RE.star RE.dot

/-- The exclusion pattern `^.*.excludeme$` of `test_matches_exclude`. -/
def excludemePattern : RE := RE.cat dotStar (RE.cat RE.dot (lit "excludeme"))

/-- The exclusion pattern `^.*/metoo/.*$` of `test_matches_exclude`. -/
def metooPattern : RE := RE.cat dotStar (RE.cat (lit "/metoo/") dotStar)

theorem test_matches_exclude :
    matches_exclude "blah.excludeme" [excludemePattern, metooPattern] = true ∧
    matches_exclude "foo/metoo/blah" [excludemePattern, metooPattern] = true ∧
    matches_exclude "mobile.zip" [excludemePattern, metooPattern] = false := by decide

/-! Claims C4–C10. -/

/-- C4: `extract_file_config_from_artifact_map` raises a task-verification
error (that error kind, not a generic one) exactly when no entry matches on
taskId, locale and filename at once — so a mismatch in any one of the three
components of every entry suffices — and a successful lookup returns the file
record of a fully matching listed entry. -/
theorem c4_artifact_map_lookup (m : List ArtifactMapEntry) (filename task_id locale : String) :
    ((∃ msg, extract_file_config_from_artifact_map m filename task_id locale =
        Except.error (UtilError.taskVerification msg)) ↔
      ∀ e ∈ m, ¬(e.taskId = task_id ∧ e.locale = locale ∧
        (dictGet e.paths filename).isSome = true)) ∧
    (∀ cfg, extract_file_config_from_artifact_map m filename task_id locale = Except.ok cfg →
      ∃ e ∈ m, e.taskId = task_id ∧ e.locale = locale ∧
        dictGet e.paths filename = some cfg) := by
  induction m with
  | nil =>
    constructor
    · simp only [List.not_mem_nil, false_implies, implies_true, iff_true]
      exact ⟨"No artifact map entry for file " ++ filename ++ ", task " ++ task_id ++
        ", locale " ++ locale, rfl⟩
    · intro cfg h
      simp [extract_file_config_from_artifact_map] at h
  | cons e rest ih =>
    by_cases hm : e.taskId = task_id ∧ e.locale = locale
    · cases hp : dictGet e.paths filename with
      | some cfg0 =>
        have hrun : extract_file_config_from_artifact_map (e :: rest) filename task_id locale =
            Except.ok cfg0 := by
          simp [extract_file_config_from_artifact_map, hm, hp]
        constructor
        · constructor
          · rintro ⟨msg, hmsg⟩
            rw [hrun] at hmsg
            cases hmsg
          · intro hall
            refine absurd ⟨hm.1, hm.2, ?_⟩ (hall e (List.mem_cons_self e rest))
            rw [hp]
            rfl
        · intro cfg hcfg
          rw [hrun] at hcfg
          injection hcfg with hc
          exact ⟨e, List.mem_cons_self e rest, hm.1, hm.2, hc ▸ hp⟩
      | none =>
        have hrun : extract_file_config_from_artifact_map (e :: rest) filename task_id locale =
            extract_file_config_from_artifact_map rest filename task_id locale := by
          simp [extract_file_config_from_artifact_map, hm, hp]
        constructor
        · constructor
          · intro hex e' he'
            rcases List.mem_cons.mp he' with rfl | hmem
            · rintro ⟨h1, h2, h3⟩
              rw [hp] at h3
              cases h3
            · exact (ih.1.mp (by rwa [hrun] at hex)) e' hmem
          · intro hall
            rw [hrun]
            exact ih.1.mpr (fun e' he' => hall e' (List.mem_cons_of_mem _ he'))
        · intro cfg hcfg
          rw [hrun] at hcfg
          obtain ⟨e', he', h⟩ := ih.2 cfg hcfg
          exact ⟨e', List.mem_cons_of_mem _ he', h⟩
    · have hrun : extract_file_config_from_artifact_map (e :: rest) filename task_id locale =
          extract_file_config_from_artifact_map rest filename task_id locale := by
        simp [extract_file_config_from_artifact_map, hm]
      constructor
      · constructor
        · intro hex e' he'
          rcases List.mem_cons.mp he' with rfl | hmem
          · rintro ⟨h1, h2, h3⟩
            exact hm ⟨h1, h2⟩
          · exact (ih.1.mp (by rwa [hrun] at hex)) e' hmem
        · intro hall
          rw [hrun]
          exact ih.1.mpr (fun e' he' => hall e' (List.mem_cons_of_mem _ he'))
      · intro cfg hcfg
        rw [hrun] at hcfg
        obtain ⟨e', he', h⟩ := ih.2 cfg hcfg
        exact ⟨e', List.mem_cons_of_mem _ he', h⟩

/-- C4 witness: on the test fixture, the lookup succeeds against the fully
matching entry, and each of a wrong taskId, a wrong locale and a wrong
filename alone produces the task-verification error. -/
theorem c4_artifact_map_lookup_witness :
    (∃ e ∈ artifactMapFixture, e.taskId = "eSzfNqMZT_mSiQQXu8hyqg" ∧ e.locale = "en-US" ∧
      dictGet e.paths "target.txt" = some targetTxtConfig) ∧
    (∃ msg, extract_file_config_from_artifact_map artifactMapFixture "target.txt"
      "wrongqMZT_mSiQQXu8hyqg" "en-US" = Except.error (UtilError.taskVerification msg)) ∧
    (∃ msg, extract_file_config_from_artifact_map artifactMapFixture "target.txt"
      "eSzfNqMZT_mSiQQXu8hyqg" "en-wrong" = Except.error (UtilError.taskVerification msg)) ∧
    (∃ msg, extract_file_config_from_artifact_map artifactMapFixture "target.wrong"
      "eSzfNqMZT_mSiQQXu8hyqg" "en-US" = Except.error (UtilError.taskVerification msg)) :=
  ⟨(c4_artifact_map_lookup artifactMapFixture "target.txt" "eSzfNqMZT_mSiQQXu8hyqg"
      "en-US").2 targetTxtConfig rfl,
   (c4_artifact_map_lookup artifactMapFixture "target.txt" "wrongqMZT_mSiQQXu8hyqg"
      "en-US").1.mpr (by decide),
   (c4_artifact_map_lookup artifactMapFixture "target.txt" "eSzfNqMZT_mSiQQXu8hyqg"
      "en-wrong").1.mpr (by decide),
   (c4_artifact_map_lookup artifactMapFixture "target.wrong" "eSzfNqMZT_mSiQQXu8hyqg"
      "en-US").1.mpr (by decide)⟩

/-- C5: for non-empty version and build number, `get_candidates_prefix`
returns exactly `pub/<family>/candidates/<version>-candidates/build<buildNumber>/`
and `get_releases_prefix` returns exactly `pub/<family>/releases/<version>/`,
where the family — `"mobile"` for the mobile products `"fennec"` and
`"mobile"`, the product name itself otherwise — is the same
`product_family product` in both. -/
theorem c5_prefix_shapes (product version build_number : String)
    (hv : version ≠ "") (hb : build_number ≠ "") :
    get_candidates_prefix product version build_number =
      Except.ok ("pub/" ++ product_family product ++ "/candidates/" ++ version ++
        "-candidates/build" ++ build_number ++ "/") ∧
    get_releases_prefix product version =
      "pub/" ++ product_family product ++ "/releases/" ++ version ++ "/" ∧
    product_family product =
      (if product = "fennec" ∨ product = "mobile" then "mobile" else product) := by
  refine ⟨?_, rfl, rfl⟩
  simp [ get_candidates_prefix, hv, hb]

/-- C5 witness: the prefix shapes at the inputs of `test_get_candidates_prefix`
and `test_get_releases_prefix`, with the mobile family substitution. -/
theorem c5_prefix_shapes_witness :
    get_candidates_prefix "fennec" "bar" "baz" =
      Except.ok "pub/mobile/candidates/bar-candidates/buildbaz/" ∧
    get_releases_prefix "firefox" "bar" = "pub/firefox/releases/bar/" :=
  ⟨((c5_prefix_shapes "fennec" "bar" "baz" (by decide) (by decide)).1).trans (by decide),
   ((c5_prefix_shapes "firefox" "bar" "x" (by decide) (by decide)).2.1).trans (by decide)⟩

/-- C9: `get_candidates_prefix` fails with an error, rather than returning a
prefix string, whenever its version argument or its build-number argument is
empty. -/
theorem c9_empty_version_or_build (product version build_number : String)
    (h : version = "" ∨ build_number = "") :
    ∃ e, get_candidates_prefix product version build_number = Except.error e := by
  refine ⟨UtilError.valueError "empty version or build number", ?_⟩
  simp [ get_candidates_prefix, h]

/-- C9 witness: an empty version and an empty build number each make
`get_candidates_prefix` fail. -/
theorem c9_empty_version_or_build_witness :
    (∃ e, get_candidates_prefix "firefox" "" "1" = Except.error e) ∧
    (∃ e, get_candidates_prefix "firefox" "99.0" "" = Except.error e) :=
  ⟨c9_empty_version_or_build "firefox" "" "1" (Or.inl rfl),
   c9_empty_version_or_build "firefox" "99.0" "" (Or.inr rfl)⟩

/-- C6: `get_partner_match` returns the `"<group>/<subgroup>"` rendering of
the first listed pair whose partner candidates prefix is a prefix of the
key — every successful result splits the list into earlier non-matching
pairs followed by the matching pair — and returns `none` exactly when no
listed pair matches, so among several matching pairs the earliest always
wins. -/
theorem c6_partner_first_match (key base : String) (partners : List (String × String)) :
    (∀ r, get_partner_match key base partners = some r →
      ∃ l1 p l2, partners = l1 ++ p :: l2 ∧ r = partner_path p ∧
        startswith key ( get_partner_candidates_prefix base (partner_path p)) = true ∧
        ∀ q ∈ l1,
          startswith key ( get_partner_candidates_prefix base (partner_path q)) = false) ∧
    (get_partner_match key base partners = none ↔
      ∀ p ∈ partners,
        startswith key ( get_partner_candidates_prefix base (partner_path p)) = false) := by
  induction partners with
  | nil =>
    constructor
    · intro r h
      simp [ get_partner_match] at h
    · simp [ get_partner_match]
  | cons p rest ih =>
    by_cases hm : startswith key ( get_partner_candidates_prefix base (partner_path p)) = true
    · have hrun : get_partner_match key base (p :: rest) = some (partner_path p) := by
        simp [ get_partner_match, hm]
      constructor
      · intro r h
        rw [hrun] at h
        injection h with hr
        exact ⟨[], p, rest, rfl, hr.symm, hm, by simp⟩
      · rw [hrun]
        constructor
        · intro h
          simp at h
        · intro hall
          simp [hall p (List.mem_cons_self p rest)] at hm
    · simp only [Bool.not_eq_true] at hm
      have hrun : get_partner_match key base (p :: rest) =
          get_partner_match key base rest := by
        simp [ get_partner_match, hm]
      constructor
      · intro r h
        rw [hrun] at h
        obtain ⟨l1, p', l2, heq, hr, hmt, hall⟩ := ih.1 r h
        refine ⟨p :: l1, p', l2, by rw [heq, List.cons_append], hr, hmt, ?_⟩
        intro q hq
        rcases List.mem_cons.mp hq with rfl | hq'
        · exact hm
        · exact hall q hq'
      · rw [hrun]
        constructor
        · intro h q hq
          rcases List.mem_cons.mp hq with rfl | hq'
          · exact hm
          · exact ih.2.mp h q hq'
        · intro hall
          exact ih.2.mpr (fun q hq => hall q (List.mem_cons_of_mem _ hq))

/-- C6 witness: on the rows of `test_get_partner_match`, the matching pair
`("p1", "s2")` is found behind the non-matching `("p1", "s1")`, and a key
under no listed partner prefix yields `none`. -/
theorem c6_partner_first_match_witness :
    (∃ l1 p l2, ([("p1", "s1"), ("p1", "s2")] : List (String × String)) = l1 ++ p :: l2 ∧
      ("p1/s2" : String) = partner_path p ∧
      startswith "foo/partner-repacks/p1/s2/v1/baz/biz.buzz"
        ( get_partner_candidates_prefix "foo/" (partner_path p)) = true ∧
      ∀ q ∈ l1, startswith "foo/partner-repacks/p1/s2/v1/baz/biz.buzz"
        ( get_partner_candidates_prefix "foo/" (partner_path q)) = false) ∧
    get_partner_match "foo/partner-repacks/p2/s3/v1/baz/biz.buzz" "foo/"
      [("p1", "s1"), ("p1", "s2")] = none :=
  ⟨(c6_partner_first_match "foo/partner-repacks/p1/s2/v1/baz/biz.buzz" "foo/"
      [("p1", "s1"), ("p1", "s2")]).1 "p1/s2" (by decide),
   (c6_partner_first_match "foo/partner-repacks/p2/s3/v1/baz/biz.buzz" "foo/"
      [("p1", "s1"), ("p1", "s2")]).2.mpr (by decide)⟩

/-- C7: `exists_or_endswith` is true exactly when the filename itself, or
its final path segment, is character-for-character equal to some member of
the basename list; in particular a filename whose basename merely extends a
member (`target.dmgx` against `target.dmg`) does not match, while a
directory-qualified exact basename does. -/
theorem c7_exists_or_endswith (filename : String) (basenames : List String) :
    (exists_or_endswith filename basenames = true ↔
      filename ∈ basenames ∨ basename filename ∈ basenames) ∧
    exists_or_endswith "public/build/target.dmg" ["target.dmg"] = true ∧
    exists_or_endswith "target.dmgx" ["target.dmg"] = false := by
  refine ⟨?_, by decide, by decide⟩
  simp [exists_or_endswith, List.elem_iff]

/-- C8: `matches_exclude` is true exactly when at least one pattern of the
ordered exclusion sequence matches the whole key under the anchored language
semantics `Matches`; a pattern matching only a proper substring does not
count, as the literal pattern `abc` inside `xabcy` shows, and the rows of
`test_matches_exclude` evaluate as the test expects. -/
theorem c8_matches_exclude (key : String) (excludes : List RE) :
    (matches_exclude key excludes = true ↔ ∃ r ∈ excludes, Matches r key.data) ∧
    matches_exclude "blah.excludeme" [excludemePattern, metooPattern] = true ∧
    matches_exclude "mobile.zip" [excludemePattern, metooPattern] = false ∧
    Matches (lit "abc") "abc".data ∧
    matches_exclude "xabcy" [lit "abc"] = false := by
  refine ⟨?_, by decide, by decide, reMatchList_iff.mp (by decide), by decide⟩
  simp [matches_exclude, List.any_eq_true, fullmatch, reMatchList_iff]

/-- C10: `validated_task_id` returns its argument unchanged exactly on
22-character strings over the slug alphabet `[A-Za-z0-9_-]`, and raises a
value error on any other string — in particular on `"foobar"`, on the empty
string and on a 21-character truncation, while the valid slug
`"eSzfNqMZT_mSiQQXu8hyqg"` is returned unchanged. -/
theorem c10_validated_task_id (s : String) :
    (s.data.length = 22 ∧ s.data.all slugChar = true → validated_task_id s = Except.ok s) ∧
    (¬(s.data.length = 22 ∧ s.data.all slugChar = true) →
      ∃ msg, validated_task_id s = Except.error (UtilError.valueError msg)) ∧
    validated_task_id "eSzfNqMZT_mSiQQXu8hyqg" = Except.ok "eSzfNqMZT_mSiQQXu8hyqg" ∧
    (∃ m1, validated_task_id "foobar" = Except.error (UtilError.valueError m1)) ∧
    (∃ m2, validated_task_id "" = Except.error (UtilError.valueError m2)) ∧
    (∃ m3, validated_task_id "eSzfNqMZT_mSiQQXu8hyq" =
      Except.error (UtilError.valueError m3)) := by
  refine ⟨fun h => ?_, fun h => ⟨"Task ID not valid", ?_⟩, by decide, ⟨_, rfl⟩, ⟨_, rfl⟩,
    ⟨_, rfl⟩⟩
  · unfold validated_task_id
    rw [if_pos h]
  · unfold validated_task_id
    rw [if_neg h]

/-- C10 witness: the slug characterization applied to the valid task id of
`test_validated_task_id` and the invalid `"foobar"` of
`test_validated_task_id_raises`. -/
theorem c10_validated_task_id_witness :
    validated_task_id "eSzfNqMZT_mSiQQXu8hyqg" = Except.ok "eSzfNqMZT_mSiQQXu8hyqg" ∧
    (∃ msg, validated_task_id "foobar" = Except.error (UtilError.valueError msg)) :=
  ⟨(c10_validated_task_id "eSzfNqMZT_mSiQQXu8hyqg").1 (by decide),
   (c10_validated_task_id "foobar").2.1 (by decide)⟩

end Beetmover
